import Mathlib

/-!
Shallow embedding of the video-generation job API (src/main.py, src/schemas.py).

The HTTP layer is modelled as pure functions over an explicit job store
(`Store`, an association list from document ids to `Job` records), with the
process environment passed in as a function `String → Option String` and the
background execution thread modelled as a separate store transformer
(`simulate_job`) whose generation step may succeed or fail (`SimOutcome`).
Pydantic request validation (defaults, enum membership, range checks) is
embedded as `parseRequest` from a raw request in which omitted optional
fields are distinguishable from explicitly null ones.
-/

namespace VideoGen

/-- Provider enumeration (`CreateJobRequest.provider` Literal in main.py). -/
inductive Provider
  | gemini
  | wan2_1
  | grok
  | hailuo
  | sora2
deriving DecidableEq, Repr

/-- Generation mode enumeration (`CreateJobRequest.mode` Literal). -/
inductive Mode
  | text_to_video
  | image_sequence_to_video
  | multi_image_guided
deriving DecidableEq, Repr

/-- Aspect ratio enumeration. -/
inductive AspectRatio
  | r16_9
  | r9_16
  | r1_1
  | r4_3
deriving DecidableEq, Repr

/-- Job status enumeration. -/
inductive Status
  | queued
  | processing
  | completed
  | failed
deriving DecidableEq, Repr

/-- Error taxonomy of the API surface (HTTPException details in main.py,
named as in the specification). -/
inductive ApiError
  | validationError
  | credentialMissingError (msg : String)
  | missingInputError (msg : String)
  | notFoundError
  | invalidIdError
  | storeUnavailableError
deriving DecidableEq, Repr

/-- A fault raised by the document store itself (e.g. the `find_one` call
raising inside `get_job`). -/
inductive StoreFault
  | unavailable
deriving DecidableEq, Repr

/-- The string key of a provider, as used in the `PROVIDERS` table and as the
lookup key into the `api_keys` payload dict. -/
def providerKey : Provider → String
  | .gemini => "gemini"
  | .wan2_1 => "wan2_1"
  | .grok => "grok"
  | .hailuo => "hailuo"
  | .sora2 => "sora2"

/-- `provider_env_map` from `_require_provider_key`: which environment
variable holds the credential of a credential-requiring provider. -/
def provider_env_map : Provider → Option String
  | .hailuo => some "HAILUO_API_KEY"
  | .sora2 => some "SORA_API_KEY"
  | _ => none

/-- Python truthiness of an `Optional[str]`: `None` and the empty string are
falsy. -/
def strTruthy : Option String → Bool
  | none => false
  | some s => s ≠ ""

/-- Python truthiness of an `Optional[int]` (post-validation fps values):
`None` and `0` are falsy. -/
def natTruthy : Option Nat → Bool
  | none => false
  | some n => n ≠ 0

/-- Python truthiness of `payload.image_urls` combined with the explicit
`len(payload.image_urls) == 0` check: `None` and `[]` are both rejected. -/
def images_present : Option (List String) → Bool
  | none => false
  | some l => !l.isEmpty

/-- `dict.get` on a string-keyed dict, modelled over an association list. -/
def dictGet (d : List (String × String)) (k : String) : Option String :=
  (d.find? (fun p => p.1 == k)).map Prod.snd

/-- The validated creation request, i.e. `CreateJobRequest` after pydantic
has applied defaults and range checks (so `duration`/`fps` are Nat). -/
structure CreateJobRequest where
  provider : Provider
  mode : Mode
  prompt : String
  aspect_ratio : AspectRatio
  duration : Nat
  image_urls : Option (List String)
  fps : Option Nat
  api_keys : Option (List (String × String))
deriving DecidableEq, Repr

/-- A raw (wire-level) creation request before pydantic validation. `none`
in an outer `Option` means the field was omitted; for `fps`,
`some none` means an explicit null was sent. -/
structure RawCreateJob where
  provider : Provider
  mode : Option Mode
  prompt : String
  aspect_ratio : Option AspectRatio
  duration : Option Int
  image_urls : Option (List String)
  fps : Option (Option Int)
  api_keys : Option (List (String × String))
deriving DecidableEq, Repr

/-- Pydantic validation of `CreateJobRequest`: defaults
(`mode`=text_to_video, `aspect_ratio`=16:9, `duration`=5, `fps`=24 when the
field is omitted) and the range checks `3 ≤ len(prompt) ≤ 2000`,
`1 ≤ duration ≤ 60`, `1 ≤ fps ≤ 60`. -/
def parseRequest (r : RawCreateJob) : Except ApiError CreateJobRequest :=
  if r.prompt.length < 3 ∨ 2000 < r.prompt.length then
    .error .validationError
  else
    let duration : Int := r.duration.getD 5
    if duration < 1 ∨ 60 < duration then
      .error .validationError
    else
      let fps : Option Int :=
        match r.fps with
        | none => some 24
        | some v => v
      match fps with
      | some f =>
          if f < 1 ∨ 60 < f then
            .error .validationError
          else
            .ok { provider := r.provider, mode := r.mode.getD .text_to_video,
                  prompt := r.prompt, aspect_ratio := r.aspect_ratio.getD .r16_9,
                  duration := duration.toNat, image_urls := r.image_urls,
                  fps := some f.toNat, api_keys := r.api_keys }
      | none =>
          .ok { provider := r.provider, mode := r.mode.getD .text_to_video,
                prompt := r.prompt, aspect_ratio := r.aspect_ratio.getD .r16_9,
                duration := duration.toNat, image_urls := r.image_urls,
                fps := none, api_keys := r.api_keys }

/-- The persisted job document (`videojob` collection). `api_keys` is not a
field of this record: `create_job` pops it before persistence. -/
structure Job where
  provider : Provider
  mode : Mode
  prompt : String
  aspect_ratio : AspectRatio
  duration : Nat
  image_urls : Option (List String)
  fps : Option Nat
  status : Status
  result_url : Option String
  error : Option String
deriving DecidableEq, Repr

/-- The job store: the `videojob` collection as an association list from
document id to job document. -/
structure Store where
  jobs : List (String × Job)
deriving DecidableEq, Repr

/-- `find_one({"_id": id})`. -/
def Store.find (s : Store) (id : String) : Option Job :=
  (s.jobs.find? (fun p => p.1 == id)).map Prod.snd

/-- `create_document("videojob", data)`: insert a new document under a
server-assigned id. -/
def create_document (s : Store) (id : String) (j : Job) : Store :=
  ⟨s.jobs ++ [(id, j)]⟩

/-- `update_one({"_id": id}, {"$set": ...})`, with the `$set` payload given
as a function on the stored document. -/
def update_job (s : Store) (id : String) (f : Job → Job) : Store :=
  ⟨s.jobs.map (fun p => if p.1 == id then (p.1, f p.2) else p)⟩

/-- `_require_provider_key(provider, api_keys)`: for credential-requiring
providers, succeed iff the environment variable or the request map holds a
truthy value (`if not (env_val or req_val): raise`). -/
def require_provider_key (env : String → Option String) (provider : Provider)
    (api_keys : Option (List (String × String))) : Except ApiError Unit :=
  match provider_env_map provider with
  | none => .ok ()
  | some env_var =>
      let env_val := env env_var
      let req_val : Option String :=
        match api_keys with
        | none => none
        | some d => dictGet d (providerKey provider)
      if !(strTruthy env_val || strTruthy req_val) then
        .error (.credentialMissingError (providerKey provider))
      else
        .ok ()

/-- The mode-conditional input checks of `create_job` (main.py lines
146-150). -/
def validate_mode_inputs (payload : CreateJobRequest) : Except ApiError Unit :=
  if payload.mode ≠ Mode.text_to_video then
    if images_present payload.image_urls = false then
      .error (.missingInputError "image_urls is required for selected mode")
    else if payload.mode = Mode.image_sequence_to_video ∧ natTruthy payload.fps = false then
      .error (.missingInputError "fps is required for image sequence mode")
    else
      .ok ()
  else
    .ok ()

/-- The job document persisted by `create_job`: `payload.model_dump()` with
`api_keys` popped and status/result fields initialised. -/
def persistedJob (payload : CreateJobRequest) : Job :=
  { provider := payload.provider, mode := payload.mode, prompt := payload.prompt,
    aspect_ratio := payload.aspect_ratio, duration := payload.duration,
    image_urls := payload.image_urls, fps := payload.fps,
    status := .queued, result_url := none, error := none }

/-- `POST /api/jobs` handler body after pydantic validation: credential
check, mode-input checks, persistence of the queued job, then the read-back
of the stored document. The background thread is dispatched without being
awaited, so the response is computed before any execution step runs; the
execution itself is `simulate_job` below, applied to the store separately.
Returns the response (or error) together with the resulting store. -/
def create_job (env : String → Option String) (s : Store) (freshId : String)
    (payload : CreateJobRequest) : Except ApiError Job × Store :=
  match require_provider_key env payload.provider payload.api_keys with
  | .error e => (.error e, s)
  | .ok _ =>
      match validate_mode_inputs payload with
      | .error e => (.error e, s)
      | .ok _ =>
          let s2 := create_document s freshId (persistedJob payload)
          match s2.find freshId with
          | some doc => (.ok doc, s2)
          | none => (.error .notFoundError, s2)

/-- The full `POST /api/jobs` endpoint: pydantic validation happens before
the handler body runs, so a `ValidationError` leaves the store untouched. -/
def post_jobs (env : String → Option String) (s : Store) (freshId : String)
    (raw : RawCreateJob) : Except ApiError Job × Store :=
  match parseRequest raw with
  | .error e => (.error e, s)
  | .ok payload => create_job env s freshId payload

/-- `wait_time = min(max(duration // 2, 2), 8)` from `simulate_job`. -/
def wait_time (duration : Nat) : Nat :=
  min (max (duration / 2) 2) 8

/-- The demo result URL produced by the simulated generation step. -/
def demo_url : String :=
  "https://commondatastorage.googleapis.com/gtv-videos-bucket/sample/BigBuckBunny.mp4"

/-- Python `str(e)[:200]`: the error message truncated to 200 characters. -/
def truncate_error (msg : String) : String :=
  ⟨msg.data.take 200⟩

/-- Outcome of the generation work inside `simulate_job`: either the
simulated generation succeeds, or the operation raises an exception with
message `msg` (caught by the `except` block at the job boundary). -/
inductive SimOutcome
  | success
  | failure (msg : String)
deriving DecidableEq, Repr

/-- First store update of `simulate_job`: mark the job processing. -/
def markProcessing (s : Store) (id : String) : Store :=
  update_job s id (fun j => { j with status := .processing })

/-- Success update of `simulate_job`: mark completed and set `result_url`. -/
def markCompleted (s : Store) (id : String) : Store :=
  update_job s id (fun j => { j with status := .completed, result_url := some demo_url })

/-- Failure update of `simulate_job` (the `except` block): mark failed and
set `error` to the exception message truncated to 200 characters. -/
def markFailed (s : Store) (id : String) (msg : String) : Store :=
  update_job s id (fun j => { j with status := .failed, error := some (truncate_error msg) })

/-- `simulate_job(job_id, provider, duration)` as a store transformer: mark
processing, sleep `wait_time duration` time units, then mark completed on
success, or mark failed if the generation work raises. -/
def simulate_job (s : Store) (id : String) (outcome : SimOutcome) : Store :=
  let s1 := markProcessing s id
  match outcome with
  | .success => markCompleted s1 id
  | .failure msg => markFailed s1 id msg

/-- A well-formed MongoDB ObjectId string: 24 hexadecimal characters
(`ObjectId(job_id)` raises on anything else). -/
def isHexChar (c : Char) : Bool :=
  c.isDigit || (decide ('a' ≤ c) && decide (c ≤ 'f')) || (decide ('A' ≤ c) && decide (c ≤ 'F'))

def isValidObjectId (id : String) : Bool :=
  id.length = 24 && id.data.all isHexChar

/-- `GET /api/jobs/{job_id}`: the `try` block wraps both the
`ObjectId(job_id)` parse and the `find_one` store read, and any exception
from either is reported as 400 Invalid job id; a missing document is 404.
The store read is passed in as a possibly-faulting lookup. -/
def get_job (lookup : String → Except StoreFault (Option Job)) (job_id : String) :
    Except ApiError Job :=
  if isValidObjectId job_id then
    match lookup job_id with
    | .error _ => .error .invalidIdError
    | .ok none => .error .notFoundError
    | .ok (some doc) => .ok doc
  else
    .error .invalidIdError

/-- `clamp(x, lo, hi)` as the specification writes the wait policy. -/
def clamp (x lo hi : Nat) : Nat :=
  min (max x lo) hi

/-- The credential-availability condition checked by
`_require_provider_key`: the source condition `env_val or req_val` as a
Bool, over the provider's environment variable and the request map. -/
def cred_available (env : String → Option String) (payload : CreateJobRequest) : Bool :=
  strTruthy ((provider_env_map payload.provider).bind env) ||
    strTruthy (match payload.api_keys with
      | none => none
      | some d => dictGet d (providerKey payload.provider))

/-- The terminal-field invariant of a job document (spec section 3). -/
def terminalInvariant (j : Job) : Prop :=
  (j.status = .completed → j.result_url ≠ none ∧ j.error = none) ∧
  (j.status = .failed → j.error ≠ none ∧ j.result_url = none ∧
      ∀ m, j.error = some m → m.length ≤ 200) ∧
  (j.result_url ≠ none → j.status = .completed) ∧
  (j.error ≠ none → j.status = .failed)

/-- The edges of the one-directional status state machine. -/
def allowed_transition (a b : Status) : Prop :=
  (a = .queued ∧ b = .processing) ∨
  (a = .processing ∧ b = .completed) ∨
  (a = .processing ∧ b = .failed)

/-- An environment with no variables set. -/
def env0 : String → Option String :=
  fun _ => none

/-- A well-formed ObjectId used as a server-assigned id in examples. -/
def oid0 : String := "0123456789abcdef01234567"

/-- The concrete scenario of the spec: an image_sequence_to_video request
with `fps` omitted. -/
def c1_raw : RawCreateJob :=
  { provider := .gemini, mode := some .image_sequence_to_video, prompt := "seq",
    aspect_ratio := none, duration := none, image_urls := some ["a.png", "b.png"],
    fps := none, api_keys := none }

/-- What pydantic turns `c1_raw` into: `fps` has defaulted to 24. -/
def c1_payload : CreateJobRequest :=
  { provider := .gemini, mode := .image_sequence_to_video, prompt := "seq",
    aspect_ratio := .r16_9, duration := 5, image_urls := some ["a.png", "b.png"],
    fps := some 24, api_keys := none }

/-- The concrete scenario of the spec: a sora2 request with no credential. -/
def sora_raw : RawCreateJob :=
  { provider := .sora2, mode := none, prompt := "a dog", aspect_ratio := none,
    duration := none, image_urls := none, fps := none, api_keys := none }

/-- A plain valid text_to_video request. -/
def cat_payload : CreateJobRequest :=
  { provider := .gemini, mode := .text_to_video, prompt := "a cat",
    aspect_ratio := .r16_9, duration := 10, image_urls := none, fps := some 24,
    api_keys := none }

/-- A hailuo request carrying no request-scoped key. -/
def hailuo_payload : CreateJobRequest :=
  { provider := .hailuo, mode := .text_to_video, prompt := "a cat",
    aspect_ratio := .r16_9, duration := 5, image_urls := none, fps := some 24,
    api_keys := none }

/-- The hailuo request with a request-scoped key supplied. -/
def hailuo_payload_with_key : CreateJobRequest :=
  { hailuo_payload with api_keys := some [("hailuo", "k-123")] }

/-- A valid gemini request carrying a (useless) request-scoped key map. -/
def cat_payload_with_keys : CreateJobRequest :=
  { cat_payload with api_keys := some [("gemini", "secret-value")] }

/-- The job document after `simulate_job` has marked it processing. -/
def processingJob (payload : CreateJobRequest) : Job :=
  { persistedJob payload with status := .processing }

/-- The job document after a successful simulated generation. -/
def completedJob (payload : CreateJobRequest) : Job :=
  { persistedJob payload with status := .completed, result_url := some demo_url }

/-- The job document after the generation step raised with message `msg`. -/
def failedJob (payload : CreateJobRequest) (msg : String) : Job :=
  { persistedJob payload with status := .failed, error := some (truncate_error msg) }

/-- The terminal document of a lifecycle for a given outcome. -/
def finalJob (payload : CreateJobRequest) : SimOutcome → Job
  | .success => completedJob payload
  | .failure msg => failedJob payload msg

-- ===================== Store lemmas =====================

theorem Store.find_create_fresh (s : Store) (id : String) (j : Job)
    (h : s.find id = none) : (create_document s id j).find id = some j := by
  have hf : s.jobs.find? (fun p => p.1 == id) = none := by
    simpa [Store.find] using h
  simp [Store.find, create_document, List.find?_append, hf]

theorem Store.find_create_ne (s : Store) (id id' : String) (j : Job)
    (h : id' ≠ id) : (create_document s id' j).find id = s.find id := by
  have hf : ([(id', j)].find? (fun p => p.1 == id)) = none := by
    rw [List.find?_cons_of_neg]
    · rfl
    · simp [h]
  simp [Store.find, create_document, List.find?_append, hf]

theorem Store.find_create_isSome (s : Store) (id : String) (j : Job) :
    (create_document s id j).find id ≠ none := by
  rcases hf : s.jobs.find? (fun p => p.1 == id) with _ | p
  · have hn : s.find id = none := by simp [Store.find, hf]
    rw [Store.find_create_fresh s id j hn]
    simp
  · simp [Store.find, create_document, List.find?_append, hf]

theorem find?_of_update_self (l : List (String × Job)) (id : String) (f : Job → Job) :
    ((l.map (fun p => if p.1 == id then (p.1, f p.2) else p)).find?
        (fun p => p.1 == id)).map Prod.snd
      = ((l.find? (fun p => p.1 == id)).map Prod.snd).map f := by
  induction l with
  | nil => simp
  | cons p t ih =>
      cases hp : (p.1 == id) with
      | true =>
          simp only [List.map_cons]
          rw [if_pos hp]
          simp only [List.find?, hp]
          rfl
      | false =>
          simp only [List.map_cons]
          rw [if_neg (by simp [hp])]
          simp only [List.find?, hp]
          exact ih

theorem find?_of_update_ne (l : List (String × Job)) (id id' : String) (f : Job → Job)
    (h : id' ≠ id) :
    (l.map (fun p => if p.1 == id' then (p.1, f p.2) else p)).find? (fun p => p.1 == id)
      = l.find? (fun p => p.1 == id) := by
  induction l with
  | nil => simp
  | cons p t ih =>
      cases hp : (p.1 == id') with
      | true =>
          have h1 : p.1 = id' := by simpa using hp
          have h2 : (p.1 == id) = false := by simp [h1, h]
          simp only [List.map_cons]
          rw [if_pos hp]
          simp only [List.find?, h2]
          exact ih
      | false =>
          simp only [List.map_cons]
          rw [if_neg (by simp [hp])]
          cases hq : (p.1 == id) with
          | true => simp only [List.find?, hq]
          | false =>
              simp only [List.find?, hq]
              exact ih

theorem Store.find_update_self (s : Store) (id : String) (f : Job → Job) :
    (update_job s id f).find id = (s.find id).map f := by
  have := find?_of_update_self s.jobs id f
  simp only [Store.find, update_job]
  exact this

theorem Store.find_update_ne (s : Store) (id id' : String) (f : Job → Job)
    (h : id' ≠ id) : (update_job s id' f).find id = s.find id := by
  have := find?_of_update_ne s.jobs id id' f h
  simp only [Store.find, update_job]
  rw [this]

-- ===================== Claim theorems =====================

/-- Claim C3: the simulated generation step waits exactly
`clamp(duration / 2, 2, 8)` time units before producing a result, and for
every duration in 1..60 that interval is at least 2 and at most 8. -/
theorem wait_time_is_clamp (d : Nat) :
    wait_time d = clamp (d / 2) 2 8 ∧
    (1 ≤ d → d ≤ 60 → 2 ≤ wait_time d ∧ wait_time d ≤ 8) := by
  refine ⟨rfl, fun _ _ => ⟨?_, ?_⟩⟩
  · simp only [wait_time]
    exact le_min (le_max_right _ _) (by norm_num)
  · simp only [wait_time]
    exact min_le_right _ _

/-- Witness for C3 at duration 10: the wait is the clamp and lies in [2,8]. -/
theorem wait_time_is_clamp_at_10 :
    wait_time 10 = clamp (10 / 2) 2 8 ∧ 2 ≤ wait_time 10 ∧ wait_time 10 ≤ 8 :=
  ⟨(wait_time_is_clamp 10).1, (wait_time_is_clamp 10).2 (by decide) (by decide)⟩

/-- Claim C6: over a healthy store, `get_job` yields InvalidIdError on a
malformed id, NotFoundError on a well-formed id with no document, and the
stored job otherwise. -/
theorem get_job_cases (s : Store) (id : String) :
    (isValidObjectId id = false →
      get_job (fun i => .ok (s.find i)) id = .error .invalidIdError) ∧
    (isValidObjectId id = true → s.find id = none →
      get_job (fun i => .ok (s.find i)) id = .error .notFoundError) ∧
    (∀ j, isValidObjectId id = true → s.find id = some j →
      get_job (fun i => .ok (s.find i)) id = .ok j) := by
  refine ⟨fun h => ?_, fun h hn => ?_, fun j h hj => ?_⟩
  · simp [get_job, h]
  · simp [get_job, h, hn]
  · simp [get_job, h, hj]

/-- Witness for C6: fetching a well-formed id from the empty store is
NotFoundError. -/
theorem get_job_cases_at_empty :
    get_job (fun i => .ok (Store.find ⟨[]⟩ i)) oid0 = .error .notFoundError :=
  (get_job_cases ⟨[]⟩ oid0).2.1 (by decide) (by decide)

/-- Claim C10: if the store lookup inside `get_job` raises, the shared
exception handler reports InvalidIdError (HTTP 400), not
StoreUnavailableError (HTTP 500). -/
theorem get_job_store_fault_is_invalid_id
    (lookup : String → Except StoreFault (Option Job)) (id : String)
    (fault : StoreFault) (hval : isValidObjectId id = true)
    (hf : lookup id = .error fault) :
    get_job lookup id = .error .invalidIdError ∧
    get_job lookup id ≠ .error .storeUnavailableError := by
  constructor
  · simp [get_job, hval, hf]
  · simp [get_job, hval, hf]

/-- Witness for C10: an always-faulting store lookup at a well-formed id. -/
theorem get_job_store_fault_is_invalid_id_at_oid0 :
    get_job (fun _ => .error .unavailable) oid0 = .error .invalidIdError ∧
    get_job (fun _ => .error .unavailable) oid0 ≠ .error .storeUnavailableError :=
  get_job_store_fault_is_invalid_id (fun _ => .error .unavailable) oid0
    .unavailable (by decide) rfl

/-- Claim C2: a successful create returns exactly the persisted job: status
queued, result_url and error both null, with the document stored under the
fresh id; the response is computed without any execution step. -/
theorem create_job_returns_queued (env : String → Option String) (s : Store)
    (fid : String) (payload : CreateJobRequest) (job : Job) (s' : Store)
    (hfresh : s.find fid = none)
    (h : create_job env s fid payload = (.ok job, s')) :
    job = persistedJob payload ∧ job.status = .queued ∧
    job.result_url = none ∧ job.error = none ∧ s'.find fid = some job := by
  cases hr : require_provider_key env payload.provider payload.api_keys with
  | error e =>
      have hc : create_job env s fid payload = (.error e, s) := by
        simp only [create_job, hr]
      rw [hc] at h
      simp at h
  | ok u =>
      cases hv : validate_mode_inputs payload with
      | error e =>
          have hc : create_job env s fid payload = (.error e, s) := by
            simp only [create_job, hr, hv]
          rw [hc] at h
          simp at h
      | ok u2 =>
          have hcj : create_job env s fid payload
              = (.ok (persistedJob payload),
                 create_document s fid (persistedJob payload)) := by
            simp only [create_job, hr, hv]
            rw [Store.find_create_fresh s fid (persistedJob payload) hfresh]
          rw [hcj] at h
          simp only [Prod.mk.injEq, Except.ok.injEq] at h
          obtain ⟨hj, hs⟩ := h
          subst hj
          refine ⟨rfl, rfl, rfl, rfl, ?_⟩
          rw [← hs]
          exact Store.find_create_fresh s fid (persistedJob payload) hfresh

/-- Witness for C2: creating cat_payload in the empty store returns the
queued job with both terminal fields null, and it is stored. -/
theorem create_job_returns_queued_at_cat :
    (persistedJob cat_payload).status = .queued ∧
    (persistedJob cat_payload).result_url = none ∧
    (persistedJob cat_payload).error = none ∧
    (Store.mk [(oid0, persistedJob cat_payload)]).find oid0
      = some (persistedJob cat_payload) := by
  have h := create_job_returns_queued env0 ⟨[]⟩ oid0 cat_payload
    (persistedJob cat_payload) ⟨[(oid0, persistedJob cat_payload)]⟩
    (by decide) rfl
  exact ⟨h.2.1, h.2.2.1, h.2.2.2.1, h.2.2.2.2⟩

/-- Claim C5: any error surfaced by the POST /api/jobs pipeline (pydantic
ValidationError, CredentialMissingError, MissingInputError) is raised
before persistence: the store comes back unchanged. -/
theorem post_jobs_error_leaves_store (env : String → Option String) (s : Store)
    (fid : String) (raw : RawCreateJob) (e : ApiError)
    (h : (post_jobs env s fid raw).1 = .error e) :
    (post_jobs env s fid raw).2 = s := by
  cases hp : parseRequest raw with
  | error e2 => simp [post_jobs, hp]
  | ok payload =>
      simp only [post_jobs, hp] at h ⊢
      cases hr : require_provider_key env payload.provider payload.api_keys with
      | error e2 => simp [create_job, hr]
      | ok u =>
          cases hv : validate_mode_inputs payload with
          | error e2 => simp [create_job, hr, hv]
          | ok u2 =>
              exfalso
              rcases hfind : (create_document s fid (persistedJob payload)).find fid
                with _ | doc
              · exact Store.find_create_isSome s fid (persistedJob payload) hfind
              · have hok : (create_job env s fid payload).1 = .ok doc := by
                  simp only [create_job, hr, hv]
                  rw [hfind]
                rw [hok] at h
                exact Except.noConfusion h

/-- Witness for C5: the spec sora2-with-no-credential scenario leaves the
empty store empty. -/
theorem post_jobs_error_leaves_store_at_sora :
    (post_jobs env0 ⟨[]⟩ oid0 sora_raw).2 = (⟨[]⟩ : Store) :=
  post_jobs_error_leaves_store env0 ⟨[]⟩ oid0 sora_raw
    (.credentialMissingError "sora2") rfl

theorem validate_mode_inputs_error (payload : CreateJobRequest) (e : ApiError)
    (h : validate_mode_inputs payload = .error e) :
    ∃ m, e = ApiError.missingInputError m := by
  unfold validate_mode_inputs at h
  split at h
  · split at h
    · exact ⟨_, (Except.error.inj h).symm⟩
    · split at h
      · exact ⟨_, (Except.error.inj h).symm⟩
      · exact absurd h (by simp)
  · exact absurd h (by simp)

theorem require_provider_key_cases (env : String → Option String) (prov : Provider)
    (keys : Option (List (String × String))) (envvar : String)
    (he : provider_env_map prov = some envvar) :
    require_provider_key env prov keys
      = (if (strTruthy (env envvar) || strTruthy (match keys with
            | none => none
            | some d => dictGet d (providerKey prov))) = true
         then Except.ok ()
         else Except.error (ApiError.credentialMissingError (providerKey prov))) := by
  unfold require_provider_key
  rw [he]
  cases hc : (strTruthy (env envvar) || strTruthy (match keys with
      | none => none
      | some d => dictGet d (providerKey prov))) with
  | true => simp [hc]
  | false => simp [hc]

/-- Claim C4: for a provider in the credential-required set {hailuo, sora2},
create fails with CredentialMissingError iff neither the environment
credential nor the request-scoped api_keys entry is present (Python-truthy);
either one lets creation proceed past the check. -/
theorem create_job_credential_iff (env : String → Option String) (s : Store)
    (fid : String) (payload : CreateJobRequest)
    (hp : payload.provider = Provider.hailuo ∨ payload.provider = Provider.sora2) :
    (∃ m, (create_job env s fid payload).1
        = .error (.credentialMissingError m)) ↔
      cred_available env payload = false := by
  obtain ⟨envvar, he⟩ : ∃ v, provider_env_map payload.provider = some v := by
    rcases hp with h | h <;> rw [h] <;> exact ⟨_, rfl⟩
  have hca : cred_available env payload
      = (strTruthy (env envvar) || strTruthy (match payload.api_keys with
          | none => none
          | some d => dictGet d (providerKey payload.provider))) := by
    simp [cred_available, he]
  have hreq := require_provider_key_cases env payload.provider payload.api_keys envvar he
  rw [← hca] at hreq
  cases hb : cred_available env payload with
  | true =>
      rw [hb] at hreq
      simp at hreq
      constructor
      · rintro ⟨m, hm⟩
        exfalso
        cases hv : validate_mode_inputs payload with
        | error e2 =>
            obtain ⟨m', hm'⟩ := validate_mode_inputs_error payload e2 hv
            have h1 : (create_job env s fid payload).1 = .error e2 := by
              simp only [create_job, hreq, hv]
            rw [h1, hm'] at hm
            simp at hm
        | ok u2 =>
            rcases hfind : (create_document s fid (persistedJob payload)).find fid
              with _ | doc
            · exact Store.find_create_isSome s fid (persistedJob payload) hfind
            · have h1 : (create_job env s fid payload).1 = .ok doc := by
                simp only [create_job, hreq, hv]
                rw [hfind]
              rw [h1] at hm
              exact Except.noConfusion hm
      · intro hfalse
        exact Bool.noConfusion hfalse
  | false =>
      rw [hb] at hreq
      simp at hreq
      constructor
      · intro _
        rfl
      · intro _
        refine ⟨providerKey payload.provider, ?_⟩
        simp [create_job, hreq]

/-- Witness for C4: hailuo with no environment and no request key is
refused with CredentialMissingError; supplying a request-scoped key
unblocks the check. -/
theorem create_job_credential_iff_at_hailuo :
    (∃ m, (create_job env0 ⟨[]⟩ oid0 hailuo_payload).1
        = .error (.credentialMissingError m)) ∧
    ¬ (∃ m, (create_job env0 ⟨[]⟩ oid0 hailuo_payload_with_key).1
        = .error (.credentialMissingError m)) := by
  constructor
  · exact (create_job_credential_iff env0 ⟨[]⟩ oid0 hailuo_payload
      (Or.inl rfl)).mpr (by decide)
  · intro hx
    exact absurd ((create_job_credential_iff env0 ⟨[]⟩ oid0 hailuo_payload_with_key
      (Or.inl rfl)).mp hx) (by decide)

theorem lifecycle_find_queued (s : Store) (fid : String)
    (payload : CreateJobRequest) (hfresh : s.find fid = none) :
    (create_document s fid (persistedJob payload)).find fid
      = some (persistedJob payload) :=
  Store.find_create_fresh s fid (persistedJob payload) hfresh

theorem lifecycle_find_processing (s : Store) (fid : String)
    (payload : CreateJobRequest) (hfresh : s.find fid = none) :
    (markProcessing (create_document s fid (persistedJob payload)) fid).find fid
      = some (processingJob payload) := by
  simp only [markProcessing]
  rw [Store.find_update_self, lifecycle_find_queued s fid payload hfresh]
  rfl

theorem lifecycle_find_completed (s : Store) (fid : String)
    (payload : CreateJobRequest) (hfresh : s.find fid = none) :
    (simulate_job (create_document s fid (persistedJob payload)) fid .success).find fid
      = some (completedJob payload) := by
  simp only [simulate_job, markCompleted]
  rw [Store.find_update_self, lifecycle_find_processing s fid payload hfresh]
  rfl

theorem lifecycle_find_failed (s : Store) (fid : String)
    (payload : CreateJobRequest) (msg : String) (hfresh : s.find fid = none) :
    (simulate_job (create_document s fid (persistedJob payload)) fid (.failure msg)).find fid
      = some (failedJob payload msg) := by
  simp only [simulate_job, markFailed]
  rw [Store.find_update_self, lifecycle_find_processing s fid payload hfresh]
  rfl

theorem lifecycle_find_final (s : Store) (fid : String)
    (payload : CreateJobRequest) (outcome : SimOutcome) (hfresh : s.find fid = none) :
    (simulate_job (create_document s fid (persistedJob payload)) fid outcome).find fid
      = some (finalJob payload outcome) := by
  cases outcome with
  | success => exact lifecycle_find_completed s fid payload hfresh
  | failure msg => exact lifecycle_find_failed s fid payload msg hfresh

/-- Claim C7: at each reachable point of a job lifecycle (freshly created,
processing, terminal for either outcome), exactly one terminal field is
set: completed implies non-null result_url and null error, failed implies a
non-null error of at most 200 characters and null result_url, and each
terminal field implies its status. -/
theorem lifecycle_terminal_fields (s : Store) (fid : String)
    (payload : CreateJobRequest) (outcome : SimOutcome)
    (hfresh : s.find fid = none) :
    (∀ j, (create_document s fid (persistedJob payload)).find fid = some j →
        terminalInvariant j) ∧
    (∀ j, (markProcessing (create_document s fid (persistedJob payload)) fid).find fid
        = some j → terminalInvariant j) ∧
    (∀ j, (simulate_job (create_document s fid (persistedJob payload)) fid outcome).find fid
        = some j → terminalInvariant j) := by
  refine ⟨fun j hj => ?_, fun j hj => ?_, fun j hj => ?_⟩
  · rw [lifecycle_find_queued s fid payload hfresh, Option.some.injEq] at hj
    subst hj
    simp [terminalInvariant, persistedJob]
  · rw [lifecycle_find_processing s fid payload hfresh, Option.some.injEq] at hj
    subst hj
    simp [terminalInvariant, processingJob, persistedJob]
  · cases outcome with
    | success =>
        rw [lifecycle_find_completed s fid payload hfresh, Option.some.injEq] at hj
        subst hj
        simp [terminalInvariant, completedJob, persistedJob, demo_url]
    | failure msg =>
        rw [lifecycle_find_failed s fid payload msg hfresh, Option.some.injEq] at hj
        subst hj
        unfold terminalInvariant
        refine ⟨fun hc => absurd hc (by simp [failedJob, persistedJob]),
          fun _ => ⟨by simp [failedJob, persistedJob],
            by simp [failedJob, persistedJob], ?_⟩,
          fun hr => absurd hr (by simp [failedJob, persistedJob]),
          fun _ => by simp [failedJob, persistedJob]⟩
        intro m hm
        have hm' : truncate_error msg = m := by
          simpa [failedJob, persistedJob] using hm
        subst hm'
        simp only [truncate_error, String.length]
        exact List.length_take_le 200 msg.data

/-- Witness for C7: the failed terminal document of a concrete lifecycle
satisfies the terminal-field invariant. -/
theorem lifecycle_terminal_fields_at_boom :
    terminalInvariant (failedJob cat_payload "boom") :=
  (lifecycle_terminal_fields ⟨[]⟩ oid0 cat_payload (.failure "boom") rfl).2.2 _
    (lifecycle_find_failed ⟨[]⟩ oid0 cat_payload "boom" rfl)

/-- Claim C8: the status transitions performed on a job follow the
one-directional machine queued → processing → {completed | failed}; and no
store operation addressed to a different id ever changes this job, so a
terminal status is never left by any other operation. -/
theorem lifecycle_state_machine (s : Store) (fid : String)
    (payload : CreateJobRequest) (outcome : SimOutcome)
    (hfresh : s.find fid = none) :
    (∃ j0 j1 j2,
      (create_document s fid (persistedJob payload)).find fid = some j0 ∧
      (markProcessing (create_document s fid (persistedJob payload)) fid).find fid
        = some j1 ∧
      (simulate_job (create_document s fid (persistedJob payload)) fid outcome).find fid
        = some j2 ∧
      j0.status = .queued ∧ j1.status = .processing ∧
      (j2.status = .completed ∨ j2.status = .failed) ∧
      allowed_transition j0.status j1.status ∧
      allowed_transition j1.status j2.status) ∧
    (∀ (t : Store) (fid' : String) (f : Job → Job) (j' : Job), fid' ≠ fid →
      (update_job t fid' f).find fid = t.find fid ∧
      (create_document t fid' j').find fid = t.find fid) := by
  constructor
  · refine ⟨persistedJob payload, processingJob payload, finalJob payload outcome,
      lifecycle_find_queued s fid payload hfresh,
      lifecycle_find_processing s fid payload hfresh,
      lifecycle_find_final s fid payload outcome hfresh, rfl, rfl, ?_, ?_, ?_⟩
    · cases outcome with
      | success => exact Or.inl rfl
      | failure msg => exact Or.inr rfl
    · exact Or.inl ⟨rfl, rfl⟩
    · cases outcome with
      | success => exact Or.inr (Or.inl ⟨rfl, rfl⟩)
      | failure msg => exact Or.inr (Or.inr ⟨rfl, rfl⟩)
  · intro t fid' f j' hne
    exact ⟨Store.find_update_ne t fid fid' f hne,
      Store.find_create_ne t fid fid' j' hne⟩

/-- Witness for C8: the concrete successful lifecycle of cat_payload. -/
theorem lifecycle_state_machine_at_cat :
    ∃ j0 j1 j2,
      (create_document ⟨[]⟩ oid0 (persistedJob cat_payload)).find oid0 = some j0 ∧
      (markProcessing (create_document ⟨[]⟩ oid0 (persistedJob cat_payload)) oid0).find oid0
        = some j1 ∧
      (simulate_job (create_document ⟨[]⟩ oid0 (persistedJob cat_payload)) oid0
          .success).find oid0 = some j2 ∧
      j0.status = .queued ∧ j1.status = .processing ∧
      (j2.status = .completed ∨ j2.status = .failed) ∧
      allowed_transition j0.status j1.status ∧
      allowed_transition j1.status j2.status :=
  (lifecycle_state_machine ⟨[]⟩ oid0 cat_payload .success rfl).1
/-- Claim C9: the api_keys map never reaches the store: two creation
requests that differ only in api_keys and both pass the credential check
produce the same response document and the same resulting store. -/
theorem api_keys_not_persisted (env : String → Option String) (s : Store)
    (fid : String) (r1 r2 : CreateJobRequest)
    (hsame : { r1 with api_keys := none } = { r2 with api_keys := none })
    (j1 j2 : Job) (s1 s2 : Store)
    (h1 : create_job env s fid r1 = (.ok j1, s1))
    (h2 : create_job env s fid r2 = (.ok j2, s2)) :
    j1 = j2 ∧ s1 = s2 := by
  injection hsame with hprov hmode hprompt har hdur himg hfps hkeys
  have hpj : persistedJob r1 = persistedJob r2 := by
    unfold persistedJob
    rw [hmode, hprov, hprompt, har, hdur, himg, hfps]
  have hvm : validate_mode_inputs r1 = validate_mode_inputs r2 := by
    unfold validate_mode_inputs
    rw [hmode, himg, hfps]
  cases hr1 : require_provider_key env r1.provider r1.api_keys with
  | error e =>
      have hc : create_job env s fid r1 = (.error e, s) := by
        simp only [create_job, hr1]
      rw [hc] at h1
      simp at h1
  | ok u1 =>
      cases hr2 : require_provider_key env r2.provider r2.api_keys with
      | error e =>
          have hc : create_job env s fid r2 = (.error e, s) := by
            simp only [create_job, hr2]
          rw [hc] at h2
          simp at h2
      | ok u2 =>
          cases hv1 : validate_mode_inputs r1 with
          | error e =>
              have hc : create_job env s fid r1 = (.error e, s) := by
                simp only [create_job, hr1, hv1]
              rw [hc] at h1
              simp at h1
          | ok u3 =>
              have hv2 : validate_mode_inputs r2 = .ok u3 := by
                rw [← hvm]
                exact hv1
              rcases hfind : (create_document s fid (persistedJob r1)).find fid
                with _ | doc
              · exact absurd hfind (Store.find_create_isSome s fid (persistedJob r1))
              · have e1 : create_job env s fid r1
                    = (.ok doc, create_document s fid (persistedJob r1)) := by
                  simp only [create_job, hr1, hv1]
                  rw [hfind]
                have e2 : create_job env s fid r2
                    = (.ok doc, create_document s fid (persistedJob r2)) := by
                  simp only [create_job, hr2, hv2]
                  rw [← hpj, hfind]
                rw [e1] at h1
                rw [e2] at h2
                simp only [Prod.mk.injEq, Except.ok.injEq] at h1 h2
                obtain ⟨hj1, hs1⟩ := h1
                obtain ⟨hj2, hs2⟩ := h2
                subst hj1
                subst hj2
                refine ⟨rfl, ?_⟩
                rw [← hs1, ← hs2, hpj]

/-- Witness for C9: creating cat_payload with and without an api_keys map
yields the same stored document and the same store. -/
theorem api_keys_not_persisted_at_cat :
    persistedJob cat_payload = persistedJob cat_payload_with_keys ∧
    create_document ⟨[]⟩ oid0 (persistedJob cat_payload)
      = create_document ⟨[]⟩ oid0 (persistedJob cat_payload_with_keys) :=
  api_keys_not_persisted env0 ⟨[]⟩ oid0 cat_payload cat_payload_with_keys
    (by decide) _ _ _ _ rfl rfl

/-- Claim C1 (code behaviour at the claimed failing input): for the spec
scenario image_sequence_to_video without `fps`, pydantic fills the default
`fps = 24`, the `not payload.fps` guard does not fire, and create succeeds:
a queued job with fps 24 is persisted instead of MissingInputError. -/
theorem image_sequence_without_fps_creates_job :
    parseRequest c1_raw = .ok c1_payload ∧
    c1_payload.fps = some 24 ∧
    (post_jobs env0 ⟨[]⟩ oid0 c1_raw).1 = .ok (persistedJob c1_payload) ∧
    (post_jobs env0 ⟨[]⟩ oid0 c1_raw).2
      = Store.mk [(oid0, persistedJob c1_payload)] ∧
    (persistedJob c1_payload).status = .queued := by
  refine ⟨rfl, rfl, rfl, rfl, rfl⟩

end VideoGen
